import Mathlib

/-!
Verification of the MCP stdio-to-HTTP bridge (`mcp-stdio-bridge.py`) of the
`code-indexer` repository.

The bridge reads line-delimited JSON-RPC requests from standard input,
dispatches them (initialize, tools/list, tools/call) against a background
daemon reached over HTTP, and writes one JSON-RPC response line per parsed
request.  It also supervises the daemon subprocess (`start_daemon` /
`stop_daemon`).

The embedding below mirrors the Python source:
  * `Json` models the values `json.loads` produces (numbers restricted to
    integers, which is all the bridge ever constructs or compares);
  * dictionaries are association lists with unique keys, in insertion order,
    exactly as the source builds its response dictionaries;
  * Python exceptions are `Except String` carrying `str(e)`;
  * the daemon's HTTP surface is an oracle (`DaemonOracle`) giving, for each
    endpoint, either the parsed response body or the message of the exception
    raised by `urllib.request.urlopen` / `json.loads`;
  * `json.dumps(x, indent=2)` is `dumps2`, Python `str()` / `repr()` of a
    parsed-JSON value is `pyStr` / `pyRepr`.
-/

namespace Bridge

/-- A value produced by Python's `json.loads`: null, booleans, numbers
(integers suffice for everything the bridge handles), strings, lists and
dictionaries (association lists in insertion order, keys unique). -/
inductive Json where
  | null
  | bool (b : Bool)
  | num (n : Int)
  | str (s : String)
  | arr (xs : List Json)
  | obj (kvs : List (String × Json))

/-- First-match association-list lookup, the model of Python `dict` key
lookup (keys of dictionaries in this development are unique). -/
def lookupKey (kvs : List (String × Json)) (k : String) : Option Json :=
  match kvs with
  | [] => none
  | (k2, v) :: rest => if k2 = k then some v else lookupKey rest k

/-- Python `d.get(k, default)` on a dictionary. -/
def pyGet (kvs : List (String × Json)) (k : String) (dflt : Json) : Json :=
  match lookupKey kvs k with
  | some v => v
  | none => dflt

/-- Python `==` between an arbitrary object and a string literal: true exactly
when the object is that string (used by `handle_request`'s dispatch). -/
def pyEqStr (j : Json) (s : String) : Bool :=
  match j with
  | Json.str t => t = s
  | _ => false

/-- The Python type name of a parsed-JSON value, as it appears in exception
messages (`type(x).__name__`). -/
def pyTypeName : Json → String
  | Json.null => "NoneType"
  | Json.bool _ => "bool"
  | Json.num _ => "int"
  | Json.str _ => "str"
  | Json.arr _ => "list"
  | Json.obj _ => "dict"

/-- A single-quote character, written via its code point. -/
def sq : String := String.singleton (Char.ofNat 39)

/-- `str(AttributeError)` raised by `x.get(...)` on a non-dictionary `x`. -/
def attrGetErr (j : Json) : String :=
  sq ++ pyTypeName j ++ sq ++ " object has no attribute " ++ sq ++ "get" ++ sq

/-- `str(TypeError)` raised by `"k" in x` on a non-container `x`. -/
def containsTypeErr (j : Json) : String :=
  "argument of type " ++ sq ++ pyTypeName j ++ sq ++ " is not iterable"

/-- `str(TypeError)` raised by `for t in x` on a non-iterable `x`. -/
def iterTypeErr (j : Json) : String :=
  sq ++ pyTypeName j ++ sq ++ " object is not iterable"

/-- `str(TypeError)` raised by `x["k"]` on a value that cannot be indexed by a
string, and `str(KeyError)` for a missing dictionary key. -/
def indexStrErr (j : Json) : String :=
  match j with
  | Json.arr _ => "list indices must be integers or slices, not str"
  | Json.str _ => "string indices must be integers"
  | j => sq ++ pyTypeName j ++ sq ++ " object is not subscriptable"

/-- One lowercase hexadecimal digit. -/
def hexDigit (n : Nat) : String :=
  if n < 10 then toString n
  else if n = 10 then "a"
  else if n = 11 then "b"
  else if n = 12 then "c"
  else if n = 13 then "d"
  else if n = 14 then "e"
  else "f"

/-- Four lowercase hexadecimal digits, as in `\uXXXX` escapes. -/
def hex4 (n : Nat) : String :=
  hexDigit (n / 4096 % 16) ++ hexDigit (n / 256 % 16) ++
    hexDigit (n / 16 % 16) ++ hexDigit (n % 16)

/-- Two lowercase hexadecimal digits, as in `\xXX` escapes. -/
def hex2 (n : Nat) : String :=
  hexDigit (n / 16 % 16) ++ hexDigit (n % 16)

/-- How `json.dumps` (default `ensure_ascii=True`) renders one character of a
string: `"` `\` and control characters get two-character escapes, anything
outside the printable ASCII range becomes `\uXXXX` (a surrogate pair beyond
the basic multilingual plane), and printable ASCII passes through. -/
def escChar (c : Char) : String :=
  if c = '"' then "\\\""
  else if c = '\\' then "\\\\"
  else if c = '\n' then "\\n"
  else if c = '\t' then "\\t"
  else if c = '\r' then "\\r"
  else if c = Char.ofNat 8 then "\\b"
  else if c = Char.ofNat 12 then "\\f"
  else if c.toNat < 32 then "\\u" ++ hex4 c.toNat
  else if c.toNat < 127 then String.singleton c
  else if c.toNat < 65536 then "\\u" ++ hex4 c.toNat
  else
    "\\u" ++ hex4 (55296 + (c.toNat - 65536) / 1024) ++
      "\\u" ++ hex4 (56320 + (c.toNat - 65536) % 1024)

/-- `json.dumps` of a Python string: quoted, characters escaped. -/
def quoteStr (s : String) : String :=
  "\"" ++ String.join (s.toList.map escChar) ++ "\""

/-- `n` spaces. -/
def spaces (n : Nat) : String :=
  String.join (List.replicate n " ")

mutual

/-- `json.dumps(x, indent=2)` at current indentation column `cur`: scalars are
rendered inline, a non-empty list or dictionary opens its bracket, puts each
item on its own line indented two further columns, and closes the bracket back
at column `cur`; empty containers stay inline. -/
def dumpVal (cur : Nat) : Json → String
  | Json.null => "null"
  | Json.bool true => "true"
  | Json.bool false => "false"
  | Json.num n => toString n
  | Json.str s => quoteStr s
  | Json.arr [] => "[]"
  | Json.arr (x :: xs) =>
      "[\n" ++ dumpItems (cur + 2) (x :: xs) ++ "\n" ++ spaces cur ++ "]"
  | Json.obj [] => "\x7b\x7d"
  | Json.obj (kv :: kvs) =>
      "\x7b\n" ++ dumpPairs (cur + 2) (kv :: kvs) ++ "\n" ++ spaces cur ++ "\x7d"

/-- The item lines of an indented list, separated by `,\n`. -/
def dumpItems (cur : Nat) : List Json → String
  | [] => ""
  | [x] => spaces cur ++ dumpVal cur x
  | x :: y :: rest =>
      spaces cur ++ dumpVal cur x ++ ",\n" ++ dumpItems cur (y :: rest)

/-- The member lines of an indented dictionary, separated by `,\n`, each
`"key": value`. -/
def dumpPairs (cur : Nat) : List (String × Json) → String
  | [] => ""
  | [(k, v)] => spaces cur ++ quoteStr k ++ ": " ++ dumpVal cur v
  | (k, v) :: kv2 :: rest =>
      spaces cur ++ quoteStr k ++ ": " ++ dumpVal cur v ++ ",\n" ++
        dumpPairs cur (kv2 :: rest)

end

/-- `json.dumps(x, indent=2)`, as used for the `"text"` content block of a
`tools/call` result. -/
def dumps2 (j : Json) : String := dumpVal 0 j

/-- How Python `repr` renders one character of a string, given the chosen
quote character `q`. -/
def pyEscChar (q : Char) (c : Char) : String :=
  if c = '\\' then "\\\\"
  else if c = q then "\\" ++ String.singleton q
  else if c = '\n' then "\\n"
  else if c = '\r' then "\\r"
  else if c = '\t' then "\\t"
  else if c.toNat < 32 then "\\x" ++ hex2 c.toNat
  else if c.toNat = 127 then "\\x7f"
  else String.singleton c

/-- Python `repr` of a string: single-quoted, unless the string contains a
single quote and no double quote, in which case double-quoted. -/
def pyReprStr (s : String) : String :=
  let hasSq := s.toList.any (fun c => c = Char.ofNat 39)
  let hasDq := s.toList.any (fun c => c = '"')
  let q := if hasSq && !hasDq then '"' else Char.ofNat 39
  String.singleton q ++ String.join (s.toList.map (pyEscChar q)) ++
    String.singleton q

mutual

/-- Python `repr` of a parsed-JSON value (`None`/`True`/`False`, decimal
integers, quoted strings, `[...]` lists, `{...}` dictionaries). -/
def pyRepr : Json → String
  | Json.null => "None"
  | Json.bool true => "True"
  | Json.bool false => "False"
  | Json.num n => toString n
  | Json.str s => pyReprStr s
  | Json.arr xs => "[" ++ pyReprList xs ++ "]"
  | Json.obj kvs => "\x7b" ++ pyReprPairs kvs ++ "\x7d"

/-- Comma-separated `repr`s of list elements. -/
def pyReprList : List Json → String
  | [] => ""
  | [x] => pyRepr x
  | x :: y :: rest => pyRepr x ++ ", " ++ pyReprList (y :: rest)

/-- Comma-separated `repr(key): repr(value)` members of a dictionary. -/
def pyReprPairs : List (String × Json) → String
  | [] => ""
  | [(k, v)] => pyReprStr k ++ ": " ++ pyRepr v
  | (k, v) :: kv2 :: rest =>
      pyReprStr k ++ ": " ++ pyRepr v ++ ", " ++ pyReprPairs (kv2 :: rest)

end

/-- Python `str` of a parsed-JSON value, as interpolated by the source's
f-strings (`f"Method not found: {method}"`): a string passes through
unquoted, everything else renders as its `repr`. -/
def pyStr (j : Json) : String :=
  match j with
  | Json.str s => s
  | j => pyRepr j

/-- Python `"k" in x`: key membership for a dictionary, element membership for
a list, substring membership for a string; raises `TypeError` otherwise. -/
def pyContains (j : Json) (k : String) : Except String Bool :=
  match j with
  | Json.obj kvs => Except.ok (lookupKey kvs k).isSome
  | Json.arr xs => Except.ok (xs.any (fun x => pyEqStr x k))
  | Json.str s => Except.ok (if k = "" then true else (s.splitOn k).length ≠ 1)
  | j => Except.error (containsTypeErr j)

/-- Python `x["k"]` with a string index: dictionary lookup (`KeyError` when
missing), `TypeError` on anything else. -/
def pyIndexStr (j : Json) (k : String) : Except String Json :=
  match j with
  | Json.obj kvs =>
      match lookupKey kvs k with
      | some v => Except.ok v
      | none => Except.error (pyReprStr k)
  | j => Except.error (indexStrErr j)

/-- Python `for t in x`: the elements a `for` loop visits — a list's elements,
a dictionary's keys, a string's characters; `TypeError` otherwise. -/
def pyIter : Json → Except String (List Json)
  | Json.arr xs => Except.ok xs
  | Json.obj kvs => Except.ok (kvs.map (fun kv => Json.str kv.1))
  | Json.str s => Except.ok (s.toList.map (fun c => Json.str (String.singleton c)))
  | j => Except.error (iterTypeErr j)

/-- Python `x.get(k, default)`, raising `AttributeError` when `x` is not a
dictionary (the failure C10 hinges on). -/
def dictOrRaise (j : Json) : Except String (List (String × Json)) :=
  match j with
  | Json.obj kvs => Except.ok kvs
  | j => Except.error (attrGetErr j)

/--
The daemon's HTTP surface as seen through `MCPStdioBridge.http_request`.
For each endpoint the oracle gives either the parsed response body
(`Except.ok`) or the `str(e)` of the exception raised by
`urllib.request.urlopen(..., timeout=...)` or by `json.loads` on the body
(`Except.error`): transport errors, timeouts, unreachable daemon, bad JSON.
`callResp` is a function of the `{"tool": ..., "arguments": ...}` body the
bridge posts (`json.dumps(call_data).encode()` is injective on it).
-/
structure DaemonOracle where
  toolsResp : Except String Json
  callResp : Json → Except String Json

/-- `MCPStdioBridge.http_request` (mcp-stdio-bridge.py lines 67-78): returns
the parsed body on success and `{"error": str(e)}` when any exception is
raised — it never propagates an exception to its caller. -/
def http_request (r : Except String Json) : Json :=
  match r with
  | Except.ok j => j
  | Except.error e => Json.obj [("error", Json.str e)]

/-- The fixed empty-object input schema the bridge substitutes when a daemon
tool record has no `input_schema` key (mcp-stdio-bridge.py lines 114-118). -/
def empty_schema : Json :=
  Json.obj [("type", Json.str "object"), ("properties", Json.obj []),
            ("required", Json.arr [])]

/-- A success response: `{"jsonrpc": "2.0", "id": request.get("id"),
"result": result}`, the shape every handler returns on its success path. -/
def okResp (kvs : List (String × Json)) (result : Json) : Json :=
  Json.obj [("jsonrpc", Json.str "2.0"), ("id", pyGet kvs "id" Json.null),
            ("result", result)]

/-- An error response: `{"jsonrpc": "2.0", "id": request.get("id"),
"error": {"code": code, "message": msg}}`. -/
def errResp (kvs : List (String × Json)) (code : Int) (msg : String) : Json :=
  Json.obj [("jsonrpc", Json.str "2.0"), ("id", pyGet kvs "id" Json.null),
            ("error", Json.obj [("code", Json.num code),
                                ("message", Json.str msg)])]

/-- Field access on a response object (used to state id/result/error facts). -/
def respField (r : Json) (k : String) : Option Json :=
  match r with
  | Json.obj kvs => lookupKey kvs k
  | _ => none

/-- The fixed `initialize` result descriptor (mcp-stdio-bridge.py lines
86-95). -/
def init_result : Json :=
  Json.obj [("protocolVersion", Json.str "2024-11-05"),
            ("capabilities", Json.obj [("tools", Json.obj [])]),
            ("serverInfo", Json.obj [("name", Json.str "Code Indexer"),
                                     ("version", Json.str "1.1.0")])]

/-- `MCPStdioBridge.handle_initialize` (mcp-stdio-bridge.py lines 80-96):
pure — no daemon parameter, hence no daemon call — returning the fixed
descriptor and echoing `request.get("id")`.  (The source also sets
`self.initialized = True`, a flag nothing else ever reads.) -/
def handle_init (kvs : List (String × Json)) : Json :=
  okResp kvs init_result

/-- The per-record mapping of `handle_tools_list`'s `for` loop
(mcp-stdio-bridge.py lines 110-120): `{"name": tool.get("name", ""),
"description": tool.get("description", ""), "inputSchema":
tool.get("input_schema", <empty schema>)}`; `tool.get` raises on a
non-dictionary record. -/
def mapTool (tool : Json) : Except String Json :=
  match dictOrRaise tool with
  | Except.error e => Except.error e
  | Except.ok t =>
      Except.ok (Json.obj
        [("name", pyGet t "name" (Json.str "")),
         ("description", pyGet t "description" (Json.str "")),
         ("inputSchema", pyGet t "input_schema" empty_schema)])

/-- The body of `handle_tools_list`'s `try` block (mcp-stdio-bridge.py lines
100-120): fetch `/api/tools`, re-raise a reported `"error"`, read the
`"tools"` list and map each record through the MCP tool shape; any exception
escapes to the `except` arm. -/
def tools_list_body (d : DaemonOracle) : Except String (List Json) :=
  let tools_data := http_request d.toolsResp
  match pyContains tools_data "error" with
  | Except.error e => Except.error e
  | Except.ok true =>
      match pyIndexStr tools_data "error" with
      | Except.error e => Except.error e
      | Except.ok ev => Except.error (pyStr ev)
  | Except.ok false =>
      match dictOrRaise tools_data with
      | Except.error e => Except.error e
      | Except.ok tkvs =>
          match pyIter (pyGet tkvs "tools" (Json.arr [])) with
          | Except.error e => Except.error e
          | Except.ok items => items.mapM mapTool

/-- `MCPStdioBridge.handle_tools_list` (mcp-stdio-bridge.py lines 98-138):
wraps the `try` body's tool list in a success response, or any escaped
exception `e` in `{"code": -32603, "message": f"Failed to get tools: {e}"}`. -/
def handle_tools_list (d : DaemonOracle) (kvs : List (String × Json)) : Json :=
  match tools_list_body d with
  | Except.ok mcp_tools => okResp kvs (Json.obj [("tools", Json.arr mcp_tools)])
  | Except.error e => errResp kvs (-32603) ("Failed to get tools: " ++ e)

/-- The `{"tool": ..., "arguments": ...}` body `handle_tool_call` posts to
`/api/call` (mcp-stdio-bridge.py lines 147-150). -/
def call_envelope (pkvs : List (String × Json)) : Json :=
  Json.obj [("tool", pyGet pkvs "name" Json.null),
            ("arguments", pyGet pkvs "arguments" (Json.obj []))]

/-- The body of `handle_tool_call`'s `try` block (mcp-stdio-bridge.py lines
142-171): extract params, post to `/api/call`, re-raise a reported
`"error"`, and pretty-print `result_data.get("result", {})`; the value
returned is the `"text"` of the single content block. -/
def tool_call_body (d : DaemonOracle) (kvs : List (String × Json)) :
    Except String String :=
  match dictOrRaise (pyGet kvs "params" (Json.obj [])) with
  | Except.error e => Except.error e
  | Except.ok pkvs =>
      let result_data := http_request (d.callResp (call_envelope pkvs))
      match pyContains result_data "error" with
      | Except.error e => Except.error e
      | Except.ok true =>
          match pyIndexStr result_data "error" with
          | Except.error e => Except.error e
          | Except.ok ev => Except.error (pyStr ev)
      | Except.ok false =>
          match dictOrRaise result_data with
          | Except.error e => Except.error e
          | Except.ok rkvs =>
              Except.ok (dumps2 (pyGet rkvs "result" (Json.obj [])))

/-- `MCPStdioBridge.handle_tool_call` (mcp-stdio-bridge.py lines 140-181):
wraps the `try` body's text in `{"content": [{"type": "text", "text": ...}]}`,
or any escaped exception `e` in `{"code": -32603, "message":
f"Tool call failed: {e}"}`. -/
def handle_tool_call (d : DaemonOracle) (kvs : List (String × Json)) : Json :=
  match tool_call_body d kvs with
  | Except.ok text =>
      okResp kvs (Json.obj [("content", Json.arr
        [Json.obj [("type", Json.str "text"), ("text", Json.str text)]])])
  | Except.error e => errResp kvs (-32603) ("Tool call failed: " ++ e)

/-- `MCPStdioBridge.handle_request` (mcp-stdio-bridge.py lines 183-201):
routes on `request.get("method")`; unknown methods get `{"code": -32601,
"message": f"Method not found: {method}"}`.  `request.get` on a non-dictionary
request raises `AttributeError`, which the session loop's `except Exception`
arm converts to an internal-error response (`Except.error` here). -/
def handle_request (d : DaemonOracle) (request : Json) : Except String Json :=
  match request with
  | Json.obj kvs =>
      let method := pyGet kvs "method" Json.null
      if pyEqStr method "initialize" then Except.ok (handle_init kvs)
      else if pyEqStr method "tools/list" then
        Except.ok (handle_tools_list d kvs)
      else if pyEqStr method "tools/call" then
        Except.ok (handle_tool_call d kvs)
      else
        Except.ok (errResp kvs (-32601) ("Method not found: " ++ pyStr method))
  | j => Except.error (attrGetErr j)

/--
The daemon subprocess handle (`subprocess.Popen`) as the supervisor sees it.
`alive` is whether the process is still running (`returncode is None`);
`diesOnTerm` is the process's behaviour: whether it would exit within the
5-second grace window after SIGTERM; `termSent` / `killSent` record the
signals delivered so far.
-/
structure DaemonProc where
  alive : Bool
  diesOnTerm : Bool
  termSent : Bool
  killSent : Bool

/-- The bridge's supervisor state: `self.daemon_process`, `None` before
`start_daemon` ever launches a process.  (`stop_daemon` never resets it to
`None`, which is what makes the second call exercise the dead-process
no-ops.) -/
structure BridgeState where
  daemon_process : Option DaemonProc

/-- `Popen.terminate()`: delivers SIGTERM, a no-op on a process already known
to have exited. -/
def popenTerminate (p : DaemonProc) : DaemonProc :=
  if p.alive then { p with termSent := true } else p

/-- `Popen.wait(timeout=5)`: returns at once for a dead process; returns
(reaping the exit) when the delivered SIGTERM kills the process within the
grace window; raises `subprocess.TimeoutExpired` otherwise. -/
def popenWaitGrace (p : DaemonProc) : Except Unit DaemonProc :=
  if p.alive = false then Except.ok p
  else if p.termSent && p.diesOnTerm then Except.ok { p with alive := false }
  else Except.error ()

/-- `Popen.kill()`: delivers SIGKILL, a no-op on a dead process. -/
def popenKill (p : DaemonProc) : DaemonProc :=
  if p.alive then { p with killSent := true } else p

/-- `Popen.wait()` with no timeout, called only after `kill()`: SIGKILL is
unconditional, so the wait returns with the process dead. -/
def popenWaitAfterKill (p : DaemonProc) : DaemonProc :=
  { p with alive := false }

/-- The observable actions of one `stop_daemon` call. -/
inductive SupEvent where
  | sigterm
  | waited
  | sigkill

instance : DecidableEq SupEvent := fun a b => by
  cases a <;> cases b <;> first
    | exact isTrue rfl
    | exact isFalse (fun h => SupEvent.noConfusion h)

/-- `MCPStdioBridge.stop_daemon` (mcp-stdio-bridge.py lines 57-65), with the
actions it performs: if a process handle exists, `terminate()` it, `wait` up
to the 5-second grace period, and on `TimeoutExpired` — the only exception any
of these primitives can raise, and the `except` arm catches exactly it —
`kill()` and `wait()` again.  Total: no exception escapes. -/
def stop_daemon_run (s : BridgeState) : BridgeState × List SupEvent :=
  match s.daemon_process with
  | none => (s, [])
  | some p =>
      let p1 := popenTerminate p
      match popenWaitGrace p1 with
      | Except.ok p2 =>
          ({ daemon_process := some p2 },
           (if p.alive then [SupEvent.sigterm] else []) ++ [SupEvent.waited])
      | Except.error _ =>
          ({ daemon_process := some (popenWaitAfterKill (popenKill p1)) },
           (if p.alive then [SupEvent.sigterm] else []) ++
             [SupEvent.waited, SupEvent.sigkill, SupEvent.waited])

/-- `stop_daemon`'s effect on the supervisor state. -/
def stop_daemon (s : BridgeState) : BridgeState :=
  (stop_daemon_run s).1

/-- No daemon process is running in state `s`. -/
def daemon_stopped (s : BridgeState) : Bool :=
  match s.daemon_process with
  | none => true
  | some p => !p.alive

/-- `MCPStdioBridge.start_daemon` (mcp-stdio-bridge.py lines 26-55): launch
the daemon (`launchOk` is whether `subprocess.Popen` succeeds), then poll
`GET /api/health` up to 60 times, 0.5 s apart; `health i` is whether poll `i`
gets HTTP 200.  Returns `true` on the first 200, `false` when the window
closes or the launch raised. -/
def start_daemon (launchOk : Bool) (health : Nat → Bool) : Bool :=
  launchOk && (List.range 60).any health

/-- The internal-error response of the session loop's `except Exception` arm
(mcp-stdio-bridge.py lines 233-244): id `None`, code `-32603`, message
`f"Internal error: {e}"`. -/
def internal_error_resp (e : String) : Json :=
  Json.obj [("jsonrpc", Json.str "2.0"), ("id", Json.null),
            ("error", Json.obj [("code", Json.num (-32603)),
                                ("message", Json.str ("Internal error: " ++ e))])]

/--
One line of standard input, classified by what `line.strip()` and
`json.loads(line)` do with it — the only facts about the text the session
loop's control flow consults:
  * `blank`: strips to the empty string, skipped before parsing;
  * `invalid`: non-blank but `json.loads` raises `json.JSONDecodeError`;
  * `parsed j`: `json.loads` returns the value `j`.
-/
inductive InputLine where
  | blank
  | invalid
  | parsed (j : Json)

/-- The response lines the session loop emits for one input line
(mcp-stdio-bridge.py lines 220-244): nothing for a blank or undecodable line
(`except json.JSONDecodeError: continue`), one line per parsed value — the
dispatched response, or the internal-error response when handling raised
(`request.get` on a non-dictionary). -/
def stepLine (d : DaemonOracle) : InputLine → List Json
  | InputLine.blank => []
  | InputLine.invalid => []
  | InputLine.parsed j =>
      match handle_request d j with
      | Except.ok resp => [resp]
      | Except.error e => [internal_error_resp e]

/--
One event of the session-loop phase, in arrival order:
  * `line l`: a line read from standard input;
  * `sigint`: SIGINT/SIGTERM delivered (CPython runs the registered handler
    in the main thread, inside the loop);
  * `fatal`: an exception not caught by the per-line `except` arms escaping
    the loop body.
A list of events ending without `sigint`/`fatal` is a session closed by
end-of-input.
-/
inductive Event where
  | line (l : InputLine)
  | sigint
  | fatal

/-- What a run of the bridge leaves behind: the emitted response lines, how
many times `stop_daemon` was invoked, the final supervisor state, and the
process exit code. -/
structure RunTrace where
  outputs : List Json
  stopCalls : Nat
  final : BridgeState
  exitCode : Int

/--
`MCPStdioBridge.run`'s session phase (mcp-stdio-bridge.py lines 218-249).
  * End-of-input: the `for` loop ends, the `finally` arm calls `stop_daemon`
    once, `run` returns 0.
  * SIGINT/SIGTERM: the handler (lines 206-211) calls `stop_daemon` and then
    `sys.exit(0)`; the raised `SystemExit` is a `BaseException`, passes the
    per-line `except Exception` arms, and triggers the `finally` arm — a
    second `stop_daemon` call — before the process exits 0.
  * A fatal exception escaping the loop body: the `finally` arm calls
    `stop_daemon` once and the interpreter exits non-zero.
  * A line: its responses are emitted and the loop continues.
-/
def runEvents (d : DaemonOracle) (st : BridgeState) : List Event → RunTrace
  | [] =>
      { outputs := [], stopCalls := 1, final := stop_daemon st, exitCode := 0 }
  | Event.sigint :: _ =>
      { outputs := [], stopCalls := 2,
        final := stop_daemon (stop_daemon st), exitCode := 0 }
  | Event.fatal :: _ =>
      { outputs := [], stopCalls := 1, final := stop_daemon st, exitCode := 1 }
  | Event.line l :: rest =>
      let tr := runEvents d st rest
      { tr with outputs := stepLine d l ++ tr.outputs }

/-- `MCPStdioBridge.run` (mcp-stdio-bridge.py lines 203-249): when
`start_daemon` fails the bridge prints to stderr and returns 1 — before the
`try` block, so without reading standard input and without calling
`stop_daemon`; otherwise the session phase runs. -/
def run (startOk : Bool) (d : DaemonOracle) (st : BridgeState)
    (events : List Event) : RunTrace :=
  if startOk then runEvents d st events
  else { outputs := [], stopCalls := 0, final := st, exitCode := 1 }

/-- Whether a parsed value is a dictionary (a JSON object). -/
def isObj : Json → Bool
  | Json.obj _ => true
  | _ => false

/-! ### Helper lemmas -/

theorem respField_okResp_id (kvs : List (String × Json)) (r : Json) :
    respField (okResp kvs r) "id" = some (pyGet kvs "id" Json.null) := rfl

theorem respField_okResp_result (kvs : List (String × Json)) (r : Json) :
    respField (okResp kvs r) "result" = some r := rfl

theorem respField_okResp_error (kvs : List (String × Json)) (r : Json) :
    respField (okResp kvs r) "error" = none := rfl

theorem respField_errResp_id (kvs : List (String × Json)) (c : Int) (m : String) :
    respField (errResp kvs c m) "id" = some (pyGet kvs "id" Json.null) := rfl

theorem respField_errResp_error (kvs : List (String × Json)) (c : Int) (m : String) :
    respField (errResp kvs c m) "error"
      = some (Json.obj [("code", Json.num c), ("message", Json.str m)]) := rfl

theorem respField_errResp_result (kvs : List (String × Json)) (c : Int) (m : String) :
    respField (errResp kvs c m) "result" = none := rfl

/-- Whatever `tools_list_body` does, `handle_tools_list` echoes the request's
id. -/
theorem handle_tools_list_id (d : DaemonOracle) (kvs : List (String × Json)) :
    respField (handle_tools_list d kvs) "id" = some (pyGet kvs "id" Json.null) := by
  cases h : tools_list_body d <;> simp only [handle_tools_list, h] <;> rfl

/-- Whatever `tool_call_body` does, `handle_tool_call` echoes the request's
id. -/
theorem handle_tool_call_id (d : DaemonOracle) (kvs : List (String × Json)) :
    respField (handle_tool_call d kvs) "id" = some (pyGet kvs "id" Json.null) := by
  cases h : tool_call_body d kvs <;> simp only [handle_tool_call, h] <;> rfl

/-- Every dictionary request gets exactly one response, and that response
echoes `request.get("id")`. -/
theorem handle_request_obj_id (d : DaemonOracle) (kvs : List (String × Json)) :
    (stepLine d (InputLine.parsed (Json.obj kvs))).map (fun r => respField r "id")
      = [some (pyGet kvs "id" Json.null)] := by
  simp only [stepLine, handle_request]
  by_cases h1 : pyEqStr (pyGet kvs "method" Json.null) "initialize" = true
  · simp [h1, handle_init, respField_okResp_id]
  · by_cases h2 : pyEqStr (pyGet kvs "method" Json.null) "tools/list" = true
    · simp [h1, h2, handle_tools_list_id]
    · by_cases h3 : pyEqStr (pyGet kvs "method" Json.null) "tools/call" = true
      · simp [h1, h2, h3, handle_tool_call_id]
      · simp [h1, h2, h3, respField_errResp_id]

/-- `stop_daemon` leaves no running daemon behind, whatever the state. -/
theorem stop_daemon_stops (s : BridgeState) :
    daemon_stopped (stop_daemon s) = true := by
  rcases s with ⟨_ | ⟨a, dt, ts, ks⟩⟩
  · rfl
  · cases a <;> cases dt <;> cases ts <;> cases ks <;> rfl

/-- `stop_daemon` is a projection: a second call does nothing further. -/
theorem stop_daemon_idem (s : BridgeState) :
    stop_daemon (stop_daemon s) = stop_daemon s := by
  rcases s with ⟨_ | ⟨a, dt, ts, ks⟩⟩
  · rfl
  · cases a <;> cases dt <;> cases ts <;> cases ks <;> rfl

/-! ### Claim theorems -/

/-- C1: for every input line of the stdio session loop, a line that parses as
JSON gets exactly one response line (echoing `request.get("id")` when the
request is a dictionary — in particular for every recognized method), a line
that fails to parse gets no response, and after such a line the loop carries
on with the remaining events unchanged. -/
theorem line_discipline (d : DaemonOracle) (j : Json) (st : BridgeState)
    (rest : List Event) (kvs : List (String × Json)) :
    (stepLine d (InputLine.parsed j)).length = 1
    ∧ stepLine d InputLine.invalid = []
    ∧ runEvents d st (Event.line InputLine.invalid :: rest) = runEvents d st rest
    ∧ (stepLine d (InputLine.parsed (Json.obj kvs))).map (fun r => respField r "id")
        = [some (pyGet kvs "id" Json.null)] := by
  refine ⟨?_, rfl, rfl, handle_request_obj_id d kvs⟩
  cases h : handle_request d j <;> simp [stepLine, h]

/-- C8: `initialize` is handled without consulting the daemon, echoes the
request's id, and always carries the one fixed result descriptor
`{"protocolVersion": "2024-11-05", "capabilities": {"tools": {}},
"serverInfo": {"name": "Code Indexer", "version": "1.1.0"}}`; two requests
get structurally identical results, and the dispatched response does not
depend on the daemon oracle. -/
theorem init_fixed_descriptor (d d2 : DaemonOracle)
    (kvs kvs2 : List (String × Json)) :
    handle_init kvs = Json.obj [("jsonrpc", Json.str "2.0"),
      ("id", pyGet kvs "id" Json.null), ("result", init_result)]
    ∧ init_result = Json.obj [("protocolVersion", Json.str "2024-11-05"),
        ("capabilities", Json.obj [("tools", Json.obj [])]),
        ("serverInfo", Json.obj [("name", Json.str "Code Indexer"),
                                 ("version", Json.str "1.1.0")])]
    ∧ respField (handle_init kvs) "result" = respField (handle_init kvs2) "result"
    ∧ handle_request d (Json.obj (("method", Json.str "initialize") :: kvs))
        = Except.ok (handle_init (("method", Json.str "initialize") :: kvs))
    ∧ handle_request d (Json.obj (("method", Json.str "initialize") :: kvs))
        = handle_request d2 (Json.obj (("method", Json.str "initialize") :: kvs)) :=
  ⟨rfl, rfl, rfl, rfl, rfl⟩

/-- C9: a dictionary request whose method is none of `initialize`,
`tools/list` and `tools/call` gets a JSON-RPC error with code `-32601` and
message `"Method not found: <method>"`, echoing the request's id. -/
theorem method_not_found (d : DaemonOracle) (kvs : List (String × Json))
    (h1 : pyEqStr (pyGet kvs "method" Json.null) "initialize" = false)
    (h2 : pyEqStr (pyGet kvs "method" Json.null) "tools/list" = false)
    (h3 : pyEqStr (pyGet kvs "method" Json.null) "tools/call" = false) :
    handle_request d (Json.obj kvs)
      = Except.ok (errResp kvs (-32601)
          ("Method not found: " ++ pyStr (pyGet kvs "method" Json.null)))
    ∧ respField (errResp kvs (-32601)
          ("Method not found: " ++ pyStr (pyGet kvs "method" Json.null))) "id"
        = some (pyGet kvs "id" Json.null)
    ∧ respField (errResp kvs (-32601)
          ("Method not found: " ++ pyStr (pyGet kvs "method" Json.null))) "error"
        = some (Json.obj [("code", Json.num (-32601)),
            ("message", Json.str ("Method not found: "
              ++ pyStr (pyGet kvs "method" Json.null)))]) := by
  refine ⟨?_, rfl, rfl⟩
  simp [handle_request, h1, h2, h3]

/-- Witness for C9 at the spec's scenario input
`{"jsonrpc": "2.0", "id": 3, "method": "unknown"}`. -/
theorem method_not_found_witness :
    handle_request ⟨Except.error "w", fun _ => Except.error "w"⟩
        (Json.obj [("jsonrpc", Json.str "2.0"), ("id", Json.num 3),
                   ("method", Json.str "unknown")])
      = Except.ok (errResp [("jsonrpc", Json.str "2.0"), ("id", Json.num 3),
                            ("method", Json.str "unknown")]
          (-32601) "Method not found: unknown") :=
  (method_not_found ⟨Except.error "w", fun _ => Except.error "w"⟩
      [("jsonrpc", Json.str "2.0"), ("id", Json.num 3),
       ("method", Json.str "unknown")] rfl rfl rfl).1

/-- C10: a line that is valid JSON but not a JSON object is not dropped: the
loop emits exactly one error response with id `null`, code `-32603` and a
message beginning `"Internal error:"` (the `AttributeError` from
`request.get`), then continues with the next line. -/
theorem non_object_line (d : DaemonOracle) (j : Json) (st : BridgeState)
    (rest : List Event) (h : isObj j = false) :
    stepLine d (InputLine.parsed j) = [internal_error_resp (attrGetErr j)]
    ∧ respField (internal_error_resp (attrGetErr j)) "id" = some Json.null
    ∧ respField (internal_error_resp (attrGetErr j)) "error"
        = some (Json.obj [("code", Json.num (-32603)),
            ("message", Json.str ("Internal error: " ++ attrGetErr j))])
    ∧ (∃ t, "Internal error: " ++ attrGetErr j = "Internal error: " ++ t)
    ∧ (runEvents d st (Event.line (InputLine.parsed j) :: rest)).outputs
        = internal_error_resp (attrGetErr j) :: (runEvents d st rest).outputs
    ∧ (runEvents d st (Event.line (InputLine.parsed j) :: rest)).stopCalls
        = (runEvents d st rest).stopCalls := by
  have h1 : stepLine d (InputLine.parsed j) = [internal_error_resp (attrGetErr j)] := by
    cases j <;> simp [isObj] at h <;> rfl
  refine ⟨h1, rfl, rfl, ⟨attrGetErr j, rfl⟩, ?_, rfl⟩
  simp [runEvents, h1]

/-- Witness for C10 at the line `42`. -/
theorem non_object_line_witness :
    isObj (Json.num 42) = false
    ∧ stepLine ⟨Except.error "w", fun _ => Except.error "w"⟩
        (InputLine.parsed (Json.num 42))
      = [internal_error_resp (attrGetErr (Json.num 42))] :=
  ⟨rfl, (non_object_line ⟨Except.error "w", fun _ => Except.error "w"⟩
      (Json.num 42) ⟨none⟩ [] rfl).1⟩

/-- C2: when the POST to `/api/call` fails with exception `e` (transport
error, timeout, unreachable daemon), or the daemon's reply carries an
`"error"` value `v`, `handle_tool_call` answers with a JSON-RPC error object
of code `-32603` whose message is `"Tool call failed: "` followed by the
cause, and carries no `result` field. -/
theorem tool_call_error_paths (d : DaemonOracle)
    (kvs pkvs rkvs : List (String × Json)) (e : String) (v : Json)
    (hp : pyGet kvs "params" (Json.obj []) = Json.obj pkvs) :
    (d.callResp (call_envelope pkvs) = Except.error e →
        handle_tool_call d kvs = errResp kvs (-32603) ("Tool call failed: " ++ e)
        ∧ respField (handle_tool_call d kvs) "result" = none
        ∧ respField (handle_tool_call d kvs) "error"
            = some (Json.obj [("code", Json.num (-32603)),
                ("message", Json.str ("Tool call failed: " ++ e))])
        ∧ ∃ t, ("Tool call failed: " ++ e) = "Tool call failed: " ++ t)
    ∧ (d.callResp (call_envelope pkvs) = Except.ok (Json.obj rkvs) →
        lookupKey rkvs "error" = some v →
        handle_tool_call d kvs
            = errResp kvs (-32603) ("Tool call failed: " ++ pyStr v)
        ∧ respField (handle_tool_call d kvs) "result" = none) := by
  constructor
  · intro hc
    have hb : tool_call_body d kvs = Except.error e := by
      simp [tool_call_body, hp, hc, dictOrRaise, http_request, pyContains,
        pyIndexStr, lookupKey, pyStr]
    have hh : handle_tool_call d kvs
        = errResp kvs (-32603) ("Tool call failed: " ++ e) := by
      simp [handle_tool_call, hb]
    exact ⟨hh, by rw [hh]; rfl, by rw [hh]; rfl, ⟨e, rfl⟩⟩
  · intro hc hv
    have hb : tool_call_body d kvs = Except.error (pyStr v) := by
      simp [tool_call_body, hp, hc, hv, dictOrRaise, http_request, pyContains,
        pyIndexStr]
    have hh : handle_tool_call d kvs
        = errResp kvs (-32603) ("Tool call failed: " ++ pyStr v) := by
      simp [handle_tool_call, hb]
    exact ⟨hh, by rw [hh]; rfl⟩

/-- Witness for C2: daemon unreachable during `tools/call`. -/
theorem tool_call_error_witness :
    handle_tool_call ⟨Except.error "w", fun _ => Except.error "connection refused"⟩
        [("id", Json.num 2),
         ("params", Json.obj [("name", Json.str "search"),
                              ("arguments", Json.obj [("q", Json.str "foo")])])]
      = errResp [("id", Json.num 2),
                 ("params", Json.obj [("name", Json.str "search"),
                                      ("arguments", Json.obj [("q", Json.str "foo")])])]
          (-32603) "Tool call failed: connection refused" :=
  ((tool_call_error_paths
      ⟨Except.error "w", fun _ => Except.error "connection refused"⟩
      [("id", Json.num 2),
       ("params", Json.obj [("name", Json.str "search"),
                            ("arguments", Json.obj [("q", Json.str "foo")])])]
      [("name", Json.str "search"), ("arguments", Json.obj [("q", Json.str "foo")])]
      [] "connection refused" Json.null rfl).1 rfl).1

/-- C5: when the `/api/tools` call succeeds with a well-formed reply, every
daemon tool record is mapped to `{name, description, inputSchema}`, and a
record without an `input_schema` key gets the empty object schema
`{"type": "object", "properties": {}, "required": []}`. -/
theorem tools_list_mapping (d : DaemonOracle) (kvs tkvs : List (String × Json))
    (ts ms : List Json)
    (h1 : d.toolsResp = Except.ok (Json.obj tkvs))
    (h2 : lookupKey tkvs "error" = none)
    (h3 : pyGet tkvs "tools" (Json.arr []) = Json.arr ts)
    (h4 : ts.mapM mapTool = Except.ok ms) :
    handle_tools_list d kvs = okResp kvs (Json.obj [("tools", Json.arr ms)])
    ∧ (∀ t : List (String × Json), mapTool (Json.obj t) = Except.ok (Json.obj
        [("name", pyGet t "name" (Json.str "")),
         ("description", pyGet t "description" (Json.str "")),
         ("inputSchema", pyGet t "input_schema" empty_schema)]))
    ∧ (∀ t : List (String × Json), lookupKey t "input_schema" = none →
        pyGet t "input_schema" empty_schema = empty_schema)
    ∧ empty_schema = Json.obj [("type", Json.str "object"),
        ("properties", Json.obj []), ("required", Json.arr [])] := by
  have hb : tools_list_body d = Except.ok ms := by
    simp only [tools_list_body, h1, h2, h3, h4, dictOrRaise, http_request,
      pyContains, pyIter, Option.isSome_none, Option.isSome_some]
  refine ⟨by simp [handle_tools_list, hb], fun t => rfl, fun t ht => ?_, rfl⟩
  simp [pyGet, ht]

/-- Witness for C5: one daemon tool record with no `input_schema`. -/
theorem tools_list_mapping_witness :
    handle_tools_list
        ⟨Except.ok (Json.obj [("tools", Json.arr
            [Json.obj [("name", Json.str "search")]])]),
         fun _ => Except.error "w"⟩
        [("id", Json.num 1)]
      = okResp [("id", Json.num 1)] (Json.obj [("tools", Json.arr
          [Json.obj [("name", Json.str "search"),
                     ("description", Json.str ""),
                     ("inputSchema", empty_schema)]])]) :=
  (tools_list_mapping
      ⟨Except.ok (Json.obj [("tools", Json.arr
          [Json.obj [("name", Json.str "search")]])]),
       fun _ => Except.error "w"⟩
      [("id", Json.num 1)]
      [("tools", Json.arr [Json.obj [("name", Json.str "search")]])]
      [Json.obj [("name", Json.str "search")]]
      [Json.obj [("name", Json.str "search"), ("description", Json.str ""),
                 ("inputSchema", empty_schema)]]
      rfl rfl rfl rfl).1

/-- C6: a successful `tools/call` yields exactly
`{"content": [{"type": "text", "text": t}]}` with a single text block whose
`t` is `json.dumps(result, indent=2)` of the daemon's result value; in
particular `{"result": {"hits": []}}` yields the text
`"{\n  \"hits\": []\n}"`. -/
theorem tool_call_success_shape (d : DaemonOracle)
    (kvs pkvs rkvs : List (String × Json))
    (hp : pyGet kvs "params" (Json.obj []) = Json.obj pkvs)
    (hc : d.callResp (call_envelope pkvs) = Except.ok (Json.obj rkvs))
    (he : lookupKey rkvs "error" = none) :
    handle_tool_call d kvs = okResp kvs (Json.obj [("content", Json.arr
        [Json.obj [("type", Json.str "text"),
                   ("text", Json.str (dumps2 (pyGet rkvs "result" (Json.obj []))))]])])
    ∧ dumps2 (Json.obj [("hits", Json.arr [])]) = "\x7b\n  \"hits\": []\n\x7d" := by
  have hb : tool_call_body d kvs
      = Except.ok (dumps2 (pyGet rkvs "result" (Json.obj []))) := by
    simp [tool_call_body, hp, hc, he, dictOrRaise, http_request, pyContains,
      pyIndexStr]
  constructor
  · simp [handle_tool_call, hb]
  · simp [dumps2, dumpVal, dumpPairs, quoteStr, escChar, spaces]
    rfl

/-- Witness for C6 at the spec's scenario: daemon replies
`{"result": {"hits": []}}`. -/
theorem tool_call_success_witness :
    handle_tool_call
        ⟨Except.error "w",
         fun _ => Except.ok (Json.obj [("result", Json.obj [("hits", Json.arr [])])])⟩
        [("id", Json.num 2),
         ("params", Json.obj [("name", Json.str "search"),
                              ("arguments", Json.obj [("q", Json.str "foo")])])]
      = okResp [("id", Json.num 2),
                ("params", Json.obj [("name", Json.str "search"),
                                     ("arguments", Json.obj [("q", Json.str "foo")])])]
          (Json.obj [("content", Json.arr
            [Json.obj [("type", Json.str "text"),
                       ("text", Json.str (dumps2 (Json.obj [("hits", Json.arr [])])))]])])
    ∧ dumps2 (Json.obj [("hits", Json.arr [])]) = "\x7b\n  \"hits\": []\n\x7d" :=
  ⟨(tool_call_success_shape
      ⟨Except.error "w",
       fun _ => Except.ok (Json.obj [("result", Json.obj [("hits", Json.arr [])])])⟩
      [("id", Json.num 2),
       ("params", Json.obj [("name", Json.str "search"),
                            ("arguments", Json.obj [("q", Json.str "foo")])])]
      [("name", Json.str "search"), ("arguments", Json.obj [("q", Json.str "foo")])]
      [("result", Json.obj [("hits", Json.arr [])])]
      rfl rfl rfl).1,
   (tool_call_success_shape
      ⟨Except.error "w",
       fun _ => Except.ok (Json.obj [("result", Json.obj [("hits", Json.arr [])])])⟩
      [("id", Json.num 2),
       ("params", Json.obj [("name", Json.str "search"),
                            ("arguments", Json.obj [("q", Json.str "foo")])])]
      [("name", Json.str "search"), ("arguments", Json.obj [("q", Json.str "foo")])]
      [("result", Json.obj [("hits", Json.arr [])])]
      rfl rfl rfl).2⟩

/-- C7: if no health poll in the 30-second window gets HTTP 200 (or the
launch raises), `start_daemon` returns failure, and then `run` exits with
status 1 having read and processed no stdio line (no outputs, and
`stop_daemon` is not reached on this path). -/
theorem startup_failure_no_stdio (launchOk : Bool) (health health2 : Nat → Bool)
    (d : DaemonOracle) (st : BridgeState) (events : List Event)
    (h : ∀ i, i < 60 → health i = false) :
    start_daemon launchOk health = false
    ∧ start_daemon false health2 = false
    ∧ run (start_daemon launchOk health) d st events
        = { outputs := [], stopCalls := 0, final := st, exitCode := 1 }
    ∧ (run (start_daemon launchOk health) d st events).outputs = []
    ∧ (run (start_daemon launchOk health) d st events).exitCode = 1 := by
  have hs : start_daemon launchOk health = false := by
    have ha : (List.range 60).any health = false := by
      rw [Bool.eq_false_iff]
      intro hcontra
      rw [List.any_eq_true] at hcontra
      obtain ⟨i, hi, hh⟩ := hcontra
      rw [List.mem_range] at hi
      rw [h i hi] at hh
      exact Bool.false_ne_true hh
    unfold start_daemon
    rw [ha, Bool.and_false]
  exact ⟨hs, rfl, by rw [hs]; rfl, by rw [hs]; rfl, by rw [hs]; rfl⟩

/-- Witness for C7: every poll fails. -/
theorem startup_failure_witness :
    start_daemon true (fun _ => false) = false
    ∧ run (start_daemon true (fun _ => false))
        ⟨Except.error "w", fun _ => Except.error "w"⟩ ⟨none⟩ []
        = { outputs := [], stopCalls := 0, final := ⟨none⟩, exitCode := 1 } :=
  ⟨(startup_failure_no_stdio true (fun _ => false) (fun _ => false)
      ⟨Except.error "w", fun _ => Except.error "w"⟩ ⟨none⟩ []
      (fun _ _ => rfl)).1,
   (startup_failure_no_stdio true (fun _ => false) (fun _ => false)
      ⟨Except.error "w", fun _ => Except.error "w"⟩ ⟨none⟩ []
      (fun _ _ => rfl)).2.2.1⟩

/-- C4: `stop_daemon` is idempotent and total (the only exception its
primitives can raise, `TimeoutExpired` from the 5-second graceful wait, is
caught by its own `except` arm): it SIGTERMs a running daemon, and SIGKILLs
it exactly when the daemon does not die within the grace window; after one
call — and equally after two — no daemon process is running. -/
theorem stop_daemon_contract (s : BridgeState) (p : DaemonProc) :
    stop_daemon (stop_daemon s) = stop_daemon s
    ∧ daemon_stopped (stop_daemon s) = true
    ∧ daemon_stopped (stop_daemon (stop_daemon s)) = true
    ∧ (p.alive = true → SupEvent.sigterm ∈ (stop_daemon_run ⟨some p⟩).2)
    ∧ (p.alive = true → p.diesOnTerm = true →
        SupEvent.sigkill ∉ (stop_daemon_run ⟨some p⟩).2)
    ∧ (p.alive = true → p.diesOnTerm = false →
        SupEvent.sigkill ∈ (stop_daemon_run ⟨some p⟩).2) := by
  refine ⟨stop_daemon_idem s, stop_daemon_stops s,
    by rw [stop_daemon_idem]; exact stop_daemon_stops s, ?_, ?_, ?_⟩
  · rcases p with ⟨a, dt, ts, ks⟩
    intro h1; subst h1
    cases dt <;> cases ts <;> cases ks <;> decide
  · rcases p with ⟨a, dt, ts, ks⟩
    intro h1 h2; subst h1; subst h2
    cases ts <;> cases ks <;> decide
  · rcases p with ⟨a, dt, ts, ks⟩
    intro h1 h2; subst h1; subst h2
    cases ts <;> cases ks <;> decide

/-- Witness for C4: a running daemon that ignores SIGTERM is killed, and two
successive stops leave it dead. -/
theorem stop_daemon_contract_witness :
    daemon_stopped (stop_daemon ⟨some ⟨true, false, false, false⟩⟩) = true
    ∧ stop_daemon (stop_daemon ⟨some ⟨true, false, false, false⟩⟩)
        = stop_daemon ⟨some ⟨true, false, false, false⟩⟩
    ∧ SupEvent.sigkill ∈ (stop_daemon_run ⟨some ⟨true, false, false, false⟩⟩).2 :=
  ⟨(stop_daemon_contract ⟨some ⟨true, false, false, false⟩⟩
      ⟨true, false, false, false⟩).2.1,
   (stop_daemon_contract ⟨some ⟨true, false, false, false⟩⟩
      ⟨true, false, false, false⟩).1,
   (stop_daemon_contract ⟨some ⟨true, false, false, false⟩⟩
      ⟨true, false, false, false⟩).2.2.2.2.2 rfl rfl⟩

/-- C3 as stated is false: deliver SIGTERM/SIGINT during the session loop —
the signal handler calls `stop_daemon` and then `sys.exit(0)`, whose
`SystemExit` unwinds through the `try` so the `finally` arm calls
`stop_daemon` a second time.  `stop_daemon` runs twice, not exactly once,
before the process exits (the daemon is still not left running). -/
theorem shutdown_signal_twice :
    (runEvents ⟨Except.error "w", fun _ => Except.error "w"⟩
        ⟨some ⟨true, true, false, false⟩⟩ [Event.sigint]).stopCalls = 2
    ∧ ¬ (runEvents ⟨Except.error "w", fun _ => Except.error "w"⟩
        ⟨some ⟨true, true, false, false⟩⟩ [Event.sigint]).stopCalls = 1
    ∧ daemon_stopped (runEvents ⟨Except.error "w", fun _ => Except.error "w"⟩
        ⟨some ⟨true, true, false, false⟩⟩ [Event.sigint]).final = true :=
  ⟨rfl, by decide, rfl⟩

/-- C3 (amended): on every session exit path — end-of-input, signal, fatal
exception — `stop_daemon` is invoked at least once before the process exits
(exactly once on the end-of-input and fatal-exception paths, twice on the
signal path, the second call an idempotent no-op), and no daemon process is
left running at exit. -/
theorem shutdown_always_stops (d : DaemonOracle) (st : BridgeState)
    (events : List Event) :
    1 ≤ (runEvents d st events).stopCalls
    ∧ daemon_stopped (runEvents d st events).final = true
    ∧ (runEvents d st []).stopCalls = 1
    ∧ (runEvents d st (Event.fatal :: events)).stopCalls = 1
    ∧ (runEvents d st (Event.sigint :: events)).stopCalls = 2 := by
  refine ⟨?_, ?_, rfl, rfl, rfl⟩ <;>
    (induction events with
     | nil => simp [runEvents, stop_daemon_stops]
     | cons ev rest ih =>
         cases ev <;>
           simp [runEvents, stop_daemon_stops, stop_daemon_idem, ih])

end Bridge
